import Mathlib

/-
Shallow embedding of the illustrative TypeScript snippets of the
React-Native-TypeScript guide repository (src/Guide.tsx and
src/KeyPoint.tsx), together with theorems settling the frozen claims
about them.

Each namespace below embeds one snippet (or one group of related
snippets).  Functions are translated from the source code blocks;
machine-level JavaScript number semantics do not arise because every
claim concerns integer-valued or string-valued data.
-/

set_option autoImplicit false

namespace Counter

/--
The action type of the `useReducer` example in src/Guide.tsx
(lines 161-164).  At runtime a dispatched action is an object with a
`type` string and, for `INCREMENT`/`DECREMENT`, a numeric `payload`;
the switch in `counterReducer` dispatches on the `type` string and has
a `default` arm, so the embedding keeps the runtime view of an action
as a tagged record.  The payload field is read only in the
`INCREMENT` and `DECREMENT` branches.
-/
structure Action where
  type : String
  payload : Int
deriving DecidableEq

/--
`counterReducer` from src/Guide.tsx lines 166-177: a switch on
`action.type` returning `state + action.payload` for INCREMENT,
`state - action.payload` for DECREMENT, `0` for RESET and `state`
for any other action (the `default` arm).
-/
def counterReducer (state : Int) (action : Action) : Int :=
  if action.type = "INCREMENT" then state + action.payload
  else if action.type = "DECREMENT" then state - action.payload
  else if action.type = "RESET" then 0
  else state

end Counter

namespace ErrHandling

/--
Values of TypeScript type `unknown` as they are discriminated by the
error-handling snippet of src/KeyPoint.tsx (lines 349-389).  The
classes `ApiError` (carrying `status`) and `ValidationError`
(carrying `field`) both extend `Error` and are distinct classes, so
`instanceof` partitions the error values into: `ApiError` instances,
`ValidationError` instances, other `Error` instances, and non-`Error`
values.  HTTP status codes are natural numbers; a non-`Error` value
carries no message.
-/
inductive JsValue where
  | apiError (message : String) (status : Nat)
  | validationError (message : String) (field : String)
  | plainError (message : String)
  | nonError (tag : String)
deriving DecidableEq

/-- `isApiError` from src/KeyPoint.tsx lines 370-372: `error instanceof ApiError`. -/
def isApiError : JsValue → Bool
  | .apiError _ _ => true
  | _ => false

/-- `isValidationError` from src/KeyPoint.tsx lines 374-376: `error instanceof ValidationError`. -/
def isValidationError : JsValue → Bool
  | .validationError _ _ => true
  | _ => false

/--
`error instanceof Error`: `ApiError` and `ValidationError` extend
`Error`, so every constructor except `nonError` is an `Error` instance.
-/
def instanceOfError : JsValue → Bool
  | .nonError _ => false
  | _ => true

/-- The `message` property of an error value; a non-`Error` value has none and the accessor is never read on one. -/
def errMessage : JsValue → String
  | .apiError m _ => m
  | .validationError m _ => m
  | .plainError m => m
  | .nonError _ => ""

/-- The `status` property, present only on `ApiError` instances. -/
def errStatus : JsValue → Nat
  | .apiError _ s => s
  | _ => 0

/-- The `field` property, present only on `ValidationError` instances. -/
def errField : JsValue → String
  | .validationError _ f => f
  | _ => ""

/--
`handleError` from src/KeyPoint.tsx lines 379-389: the if/else-if
dispatch over the two type guards and `instanceof Error`, producing a
message string.
-/
def handleError (error : JsValue) : String :=
  if isApiError error then
    "API Error (" ++ toString (errStatus error) ++ "): " ++ errMessage error
  else if isValidationError error then
    "Validation Error in " ++ errField error ++ ": " ++ errMessage error
  else if instanceOfError error then
    "Error: " ++ errMessage error
  else
    "An unknown error occurred"

end ErrHandling

namespace ThemeCtx

/-- `Theme` from src/KeyPoint.tsx line 179: the union of the three theme mode strings. -/
inductive Theme where
  | light
  | dark
  | system
deriving DecidableEq

/-- `ThemeColors` from src/KeyPoint.tsx lines 181-186. -/
structure ThemeColors where
  background : String
  text : String
  primary : String
  secondary : String
deriving DecidableEq

/-- `defaultColors` from src/KeyPoint.tsx lines 194-213: the `Record<Theme, ThemeColors>` literal. -/
def defaultColors : Theme → ThemeColors
  | .light => { background := "#FFFFFF", text := "#000000", primary := "#007AFF", secondary := "#5856D6" }
  | .dark => { background := "#000000", text := "#FFFFFF", primary := "#0A84FF", secondary := "#5E5CE6" }
  | .system => { background := "#FFFFFF", text := "#000000", primary := "#007AFF", secondary := "#5856D6" }

/--
The data of `ThemeContextType` (src/KeyPoint.tsx lines 188-192): the
current theme together with its colors.  The `setTheme` member of the
context value is the provider state setter; it is embedded separately
as `setThemeStep` on the provider state.
-/
structure ThemeContextValue where
  theme : Theme
  colors : ThemeColors
deriving DecidableEq

/--
The context value built by `ThemeProvider` (src/KeyPoint.tsx
lines 217-231) from its `useState` theme state:
`{ theme, colors: defaultColors[theme], setTheme }`.
-/
def providerValue (theme : Theme) : ThemeContextValue :=
  { theme := theme, colors := defaultColors theme }

/--
The `setTheme` operation of the provider: the `useState<Theme>` setter
replaces the provider state with the given theme.
-/
def setThemeStep (newTheme : Theme) (_current : Theme) : Theme :=
  newTheme

/--
`useTheme` from src/KeyPoint.tsx lines 233-239, with the consumed
context (`useContext(ThemeContext)`) as the explicit input: the value
supplied by the nearest enclosing provider, or `none` when there is no
enclosing `ThemeProvider` (the context default is `undefined`).  The
function throws on `undefined` and returns the context value otherwise.
-/
def useTheme (context : Option ThemeContextValue) : Except String ThemeContextValue :=
  match context with
  | none => Except.error "useTheme must be used within a ThemeProvider"
  | some v => Except.ok v

end ThemeCtx

namespace ApiAsync

/-- `User` from src/Guide.tsx lines 266-271. -/
structure User where
  id : String
  name : String
  email : String
  createdAt : String
deriving DecidableEq

/--
The fetch response as `fetchUser` observes it: the `ok` flag, the
`status` code, and the parsed JSON body (the snippet types the parsed
body as `User`).
-/
structure Response where
  ok : Bool
  status : Nat
  data : User
deriving DecidableEq

/--
The `try` block of `fetchUser` (src/Guide.tsx lines 275-283): when
`response.ok` is false it throws an `Error` whose message is
`HTTP error: <status>`; otherwise it returns the parsed body.
-/
def fetchUserTry (response : Response) : Except String User :=
  if response.ok then
    Except.ok response.data
  else
    Except.error ("HTTP error: " ++ toString response.status)

/--
`fetchUser` from src/Guide.tsx lines 274-288: the `try` block, with the
`catch` block logging the error and rethrowing it unchanged.
-/
def fetchUser (response : Response) : Except String User :=
  match fetchUserTry response with
  | Except.ok u => Except.ok u
  | Except.error e => Except.error e

/-- The component state touched by `loadUserData`: the `user`, `error` and `loading` `useState` slots. -/
structure UiState where
  user : Option User
  error : Option String
  loading : Bool
deriving DecidableEq

/--
`loadUserData` from src/Guide.tsx lines 291-300: it awaits
`fetchUser('123')`; on success it calls `setUser(user)`, on failure it
calls `setError(error.message)`, and the `finally` block calls
`setLoading(false)` in both cases.
-/
def loadUserData (response : Response) (s : UiState) : UiState :=
  match fetchUser response with
  | Except.ok u => { s with user := some u, loading := false }
  | Except.error e => { s with error := some e, loading := false }

/-- A sample parsed user record. -/
def sampleUser : User :=
  { id := "123", name := "Ada", email := "ada@example.com", createdAt := "2020-01-01" }

/-- A failing fetch response: `ok` is false with status 500. -/
def badResponse : Response :=
  { ok := false, status := 500, data := sampleUser }

/-- The component state before `loadUserData` runs. -/
def initialUi : UiState :=
  { user := none, error := none, loading := true }

end ApiAsync

namespace MediaGuards

/--
The `Media` union from src/Guide.tsx lines 424-438: `PhotoMedia`
(tag `photo`, with `uri`, `width`, `height`) or `VideoMedia`
(tag `video`, with `uri`, `duration`, `thumbnail`).
-/
inductive Media where
  | photo (uri : String) (width : Nat) (height : Nat)
  | video (uri : String) (duration : Nat) (thumbnail : String)
deriving DecidableEq

/-- The `type` discriminant of a `Media` value. -/
def mediaType : Media → String
  | .photo _ _ _ => "photo"
  | .video _ _ _ => "video"

/-- `isPhoto` from src/Guide.tsx lines 441-443: `media.type === 'photo'`. -/
def isPhoto (media : Media) : Bool :=
  mediaType media = "photo"

/-- `isVideo` from src/Guide.tsx lines 445-447: `media.type === 'video'`. -/
def isVideo (media : Media) : Bool :=
  mediaType media = "video"

/-- The `uri` field, present on both variants. -/
def mediaUri : Media → String
  | .photo u _ _ => u
  | .video u _ _ => u

/-- The `width` field; absent on videos, and read by `MediaItem` only under the `isPhoto` guard. -/
def mediaWidth : Media → Nat
  | .photo _ w _ => w
  | .video _ _ _ => 0

/-- The `height` field; absent on videos, and read by `MediaItem` only under the `isPhoto` guard. -/
def mediaHeight : Media → Nat
  | .photo _ _ h => h
  | .video _ _ _ => 0

/-- The `duration` field; absent on photos, and read by `MediaItem` only under the `isVideo` guard. -/
def mediaDuration : Media → Nat
  | .photo _ _ _ => 0
  | .video _ d _ => d

/-- The `thumbnail` field; absent on photos, and read by `MediaItem` only under the `isVideo` guard. -/
def mediaThumbnail : Media → String
  | .photo _ _ _ => ""
  | .video _ _ t => t

/-- The element `MediaItem` returns: the photo branch's `Image`, the video branch's `View`, or `null`. -/
inductive Rendered where
  | imageView (uri : String) (width : Nat) (height : Nat)
  | videoView (thumbnail : String) (duration : Nat)
  | nullView
deriving DecidableEq

/--
`MediaItem` from src/Guide.tsx lines 450-472: return the photo element
when `isPhoto`, the video element when `isVideo`, and otherwise fall
through to the exhaustiveness check (`_exhaustiveCheck: never`) and
`return null`.
-/
def MediaItem (media : Media) : Rendered :=
  if isPhoto media then
    Rendered.imageView (mediaUri media) (mediaWidth media) (mediaHeight media)
  else if isVideo media then
    Rendered.videoView (mediaThumbnail media) (mediaDuration media)
  else
    Rendered.nullView

end MediaGuards

namespace FormUpdate

/-- The field names of `LoginForm` (src/Guide.tsx lines 351-355), i.e. `keyof LoginForm`. -/
inductive Field where
  | email
  | password
  | rememberMe
deriving DecidableEq

/-- The type of the value stored at each `LoginForm` field. -/
def FieldValue : Field → Type
  | .email => String
  | .password => String
  | .rememberMe => Bool

/-- `LoginForm` from src/Guide.tsx lines 351-355. -/
structure LoginForm where
  email : String
  password : String
  rememberMe : Bool
deriving DecidableEq

/-- Read field `k` of a form. -/
def getField : (k : Field) → LoginForm → FieldValue k
  | .email, f => f.email
  | .password, f => f.password
  | .rememberMe, f => f.rememberMe

/--
The `setForm` update of `updateField` (src/Guide.tsx lines 373-376):
the spread copies the previous form and overwrites field `k` with `v`.
-/
def setField : (k : Field) → FieldValue k → LoginForm → LoginForm
  | .email, v, f => { f with email := v }
  | .password, v, f => { f with password := v }
  | .rememberMe, v, f => { f with rememberMe := v }

/--
`FormErrors` from src/Guide.tsx line 358:
`Partial<Record<keyof LoginForm, string>>`, i.e. each field optionally
maps to an error string.
-/
def FormErrors : Type :=
  Field → Option String

/--
JavaScript truthiness of the `errors[field]` lookup guarding the
`setErrors` call: an absent entry is `undefined` (falsy), and a present
entry is truthy exactly when the string is nonempty.
-/
def entryTruthy : Option String → Bool
  | none => false
  | some s => s ≠ ""

/--
The `setErrors` part of `updateField` (src/Guide.tsx lines 378-384):
when `errors[field]` is truthy, spread the previous map and overwrite
the entry for `field` with `undefined`; otherwise leave the map alone.
-/
def updateErrors (field : Field) (errors : FormErrors) : FormErrors :=
  if entryTruthy (errors field) then
    fun j => if j = field then none else errors j
  else
    errors

/--
`updateField` from src/Guide.tsx lines 369-385 acting on the pair of
`useState` slots it touches: the form and the error map.
-/
def updateField (field : Field) (value : FieldValue field) (form : LoginForm) (errors : FormErrors) : LoginForm × FormErrors :=
  (setField field value form, updateErrors field errors)

/-- A sample form state. -/
def sampleForm : LoginForm :=
  { email := "a@b.c", password := "pw", rememberMe := false }

/-- A sample error map with a (truthy) entry for the email field only. -/
def sampleErrors : FormErrors :=
  fun j => if j = Field.email then some "invalid email" else none

end FormUpdate

namespace Snippets

/--
A code snippet of the Guide document (src/Guide.tsx), abstracted to
the names it defines at top level and the project-level names it uses
without defining or importing them (`freeRefs`).  Identifiers imported
from the react / react-native / expo / navigation libraries and ambient
globals (`console`, `fetch`, test globals) are omitted throughout: no
snippet defines them, so they cannot witness a cross-snippet reference.
-/
structure Snippet where
  name : String
  defines : List String
  freeRefs : List String
deriving DecidableEq

/-- The component-props snippet, src/Guide.tsx lines 46-61. -/
def componentPropsSnippet : Snippet :=
  { name := "componentProps",
    defines := ["GreetingProps", "Greeting"],
    freeRefs := [] }

/-- The styling-types snippet, src/Guide.tsx lines 65-91. -/
def stylingSnippet : Snippet :=
  { name := "styling",
    defines := ["Styles", "styles"],
    freeRefs := [] }

/-- The event-handling snippet, src/Guide.tsx lines 95-111. -/
def eventsSnippet : Snippet :=
  { name := "events",
    defines := ["handleChange", "handlePress"],
    freeRefs := [] }

/-- The built-in component props snippet, src/Guide.tsx lines 117-138. -/
def builtinPropsSnippet : Snippet :=
  { name := "builtinProps",
    defines := ["CustomButtonProps", "CustomButton"],
    freeRefs := [] }

/-- The state-handling snippet, src/Guide.tsx lines 142-180 (useState, UserState, the reducer). -/
def stateHandlingSnippet : Snippet :=
  { name := "stateHandling",
    defines := ["count", "setCount", "UserState", "user", "setUser", "Action", "counterReducer", "state", "dispatch"],
    freeRefs := [] }

/-- The navigation snippet, src/Guide.tsx lines 184-225. -/
def navigationSnippet : Snippet :=
  { name := "navigation",
    defines := ["RootStackParamList", "Stack", "ProfileScreenNavigationProp", "ProfileScreenRouteProp", "ProfileScreenProps", "ProfileScreen"],
    freeRefs := [] }

/-- The Expo APIs snippet, src/Guide.tsx lines 229-259. -/
def expoApisSnippet : Snippet :=
  { name := "expoApis",
    defines := ["getLocation", "pickImage"],
    freeRefs := [] }

/--
The API and async operations snippet, src/Guide.tsx lines 264-300: it
defines `User`, `fetchUser` and `loadUserData`, and `loadUserData`
calls the state setters `setUser`, `setError` and `setLoading` that it
does not define (`setUser` is declared in the state-handling snippet;
`setError` and `setLoading` are declared in no snippet).
-/
def apiAsyncSnippet : Snippet :=
  { name := "apiAsync",
    defines := ["User", "fetchUser", "loadUserData"],
    freeRefs := ["setUser", "setError", "setLoading"] }

/--
The custom type definitions snippet, src/Guide.tsx lines 305-344: its
usage line `const userState = createInitialState<User>()` references
the type `User`, which this snippet does not define (it is defined in
the API snippet).
-/
def customTypesSnippet : Snippet :=
  { name := "customTypes",
    defines := ["ThemeMode", "Theme", "Nullable", "LoadingState", "createInitialState", "userState"],
    freeRefs := ["User"] }

/-- The form-handling snippet, src/Guide.tsx lines 349-385. -/
def formHandlingSnippet : Snippet :=
  { name := "formHandling",
    defines := ["LoginForm", "FormErrors", "form", "setForm", "errors", "setErrors", "updateField"],
    freeRefs := [] }

/-- The generic components snippet, src/Guide.tsx lines 392-417; its usage references `users`, defined nowhere. -/
def genericsSnippet : Snippet :=
  { name := "generics",
    defines := ["ListProps", "List"],
    freeRefs := ["users"] }

/-- The type-guards snippet, src/Guide.tsx lines 422-472. -/
def typeGuardsSnippet : Snippet :=
  { name := "typeGuards",
    defines := ["PhotoMedia", "VideoMedia", "Media", "isPhoto", "isVideo", "MediaItem"],
    freeRefs := [] }

/-- All TypeScript snippets of the Guide document, in document order. -/
def guideSnippets : List Snippet :=
  [componentPropsSnippet, stylingSnippet, eventsSnippet, builtinPropsSnippet,
   stateHandlingSnippet, navigationSnippet, expoApisSnippet, apiAsyncSnippet,
   customTypesSnippet, formHandlingSnippet, genericsSnippet, typeGuardsSnippet]

end Snippets

/--
Claim C1: `counterReducer` is a pure four-line switch: for every integer
state `s` and every action `a`, it returns `s + a.payload` when `a.type`
is INCREMENT, `s - a.payload` when `a.type` is DECREMENT, `0` when
`a.type` is RESET, and `s` unchanged for any other action.  The
embedding is a function of exactly the two arguments, so the result
depends on nothing else.
-/
theorem claim1_counterReducer (s : Int) (a : Counter.Action) :
    (a.type = "INCREMENT" → Counter.counterReducer s a = s + a.payload) ∧
    (a.type = "DECREMENT" → Counter.counterReducer s a = s - a.payload) ∧
    (a.type = "RESET" → Counter.counterReducer s a = 0) ∧
    (a.type ≠ "INCREMENT" → a.type ≠ "DECREMENT" → a.type ≠ "RESET" →
      Counter.counterReducer s a = s) := by
  refine ⟨fun h => ?_, fun h => ?_, fun h => ?_, fun h1 h2 h3 => ?_⟩
  · simp [Counter.counterReducer, h]
  · simp [Counter.counterReducer, h]
  · simp [Counter.counterReducer, h]
  · simp [Counter.counterReducer, h1, h2, h3]

/--
Witness for C1: the four branches of `counterReducer` evaluated on
concrete actions.
-/
theorem claim1_counterReducer_witness :
    Counter.counterReducer 5 { type := "INCREMENT", payload := 3 } = 5 + 3 ∧
    Counter.counterReducer 5 { type := "DECREMENT", payload := 3 } = 5 - 3 ∧
    Counter.counterReducer 5 { type := "RESET", payload := 0 } = 0 ∧
    Counter.counterReducer 5 { type := "LOG", payload := 2 } = 5 :=
  ⟨(claim1_counterReducer 5 _).1 rfl,
   (claim1_counterReducer 5 _).2.1 rfl,
   (claim1_counterReducer 5 _).2.2.1 rfl,
   (claim1_counterReducer 5 _).2.2.2 (by decide) (by decide) (by decide)⟩

/--
Claim C2: `handleError` is a total dispatch on the shape of its
`unknown` argument: an `ApiError` instance maps to the API message with
its status and message, otherwise a `ValidationError` instance maps to
the validation message with its field and message, otherwise any other
`Error` instance maps to the plain error message, and every non-`Error`
value maps to the unknown-error message.  Totality (it never throws) is
the totality of the embedded function.
-/
theorem claim2_handleError (e : ErrHandling.JsValue) :
    (ErrHandling.isApiError e = true →
      ErrHandling.handleError e
        = "API Error (" ++ toString (ErrHandling.errStatus e) ++ "): " ++ ErrHandling.errMessage e) ∧
    (ErrHandling.isApiError e = false → ErrHandling.isValidationError e = true →
      ErrHandling.handleError e
        = "Validation Error in " ++ ErrHandling.errField e ++ ": " ++ ErrHandling.errMessage e) ∧
    (ErrHandling.isApiError e = false → ErrHandling.isValidationError e = false →
      ErrHandling.instanceOfError e = true →
      ErrHandling.handleError e = "Error: " ++ ErrHandling.errMessage e) ∧
    (ErrHandling.instanceOfError e = false →
      ErrHandling.handleError e = "An unknown error occurred") := by
  cases e <;>
    simp [ErrHandling.handleError, ErrHandling.isApiError,
      ErrHandling.isValidationError, ErrHandling.instanceOfError]

/--
Witness for C2: `handleError` evaluated on one concrete value of each
of the four shapes.
-/
theorem claim2_handleError_witness :
    ErrHandling.handleError (ErrHandling.JsValue.apiError "boom" 404) = "API Error (404): boom" ∧
    ErrHandling.handleError (ErrHandling.JsValue.validationError "too short" "password")
      = "Validation Error in password: too short" ∧
    ErrHandling.handleError (ErrHandling.JsValue.plainError "oops") = "Error: oops" ∧
    ErrHandling.handleError (ErrHandling.JsValue.nonError "42") = "An unknown error occurred" :=
  ⟨((claim2_handleError (ErrHandling.JsValue.apiError "boom" 404)).1 rfl).trans (by decide),
   ((claim2_handleError (ErrHandling.JsValue.validationError "too short" "password")).2.1 rfl rfl).trans (by decide),
   ((claim2_handleError (ErrHandling.JsValue.plainError "oops")).2.2.1 rfl rfl rfl).trans (by decide),
   (claim2_handleError (ErrHandling.JsValue.nonError "42")).2.2.2 rfl⟩

/--
Claim C5: the type guards decide membership exactly: `isApiError e` is
true if and only if `e` is an `ApiError` instance, and
`isValidationError e` is true if and only if `e` is a `ValidationError`
instance; both are total Boolean functions, so neither throws.
-/
theorem claim5_guards_exact (e : ErrHandling.JsValue) :
    (ErrHandling.isApiError e = true ↔ ∃ m s, e = ErrHandling.JsValue.apiError m s) ∧
    (ErrHandling.isValidationError e = true ↔ ∃ m f, e = ErrHandling.JsValue.validationError m f) := by
  cases e <;> simp [ErrHandling.isApiError, ErrHandling.isValidationError]

/--
Counterexample to claim C3: the claim that no predicate on a snippet's
state is preserved by every operation of that snippet — in particular
none preserved by the theme provider's `setTheme` — is false.  The
predicate stating that the context value pairs its theme with
`defaultColors` of that theme is preserved by `setTheme` (indeed it
holds for every value the provider builds), and it is not trivially
true: some context value violates it.
-/
theorem claim3_counterexample :
    ∃ P : ThemeCtx.ThemeContextValue → Prop,
      (∀ s t : ThemeCtx.Theme,
        P (ThemeCtx.providerValue s) → P (ThemeCtx.providerValue (ThemeCtx.setThemeStep t s))) ∧
      (∀ s : ThemeCtx.Theme, P (ThemeCtx.providerValue s)) ∧
      (∃ v : ThemeCtx.ThemeContextValue, ¬ P v) := by
  refine ⟨fun v => v.colors = ThemeCtx.defaultColors v.theme, ?_, ?_, ?_⟩
  · intro s t _
    rfl
  · intro s
    rfl
  · exact ⟨{ theme := ThemeCtx.Theme.dark, colors := ThemeCtx.defaultColors ThemeCtx.Theme.light },
      by decide⟩

/--
Claim C3 as amended: an invariant does hold across a snippet's
operations.  The theme provider's context value always pairs the
current theme with `defaultColors` of that theme; this predicate is
preserved by `setTheme`; and it is nontrivial, since not every
`ThemeContextValue` satisfies it.
-/
theorem claim3_theme_invariant (s t : ThemeCtx.Theme) :
    (ThemeCtx.providerValue s).colors = ThemeCtx.defaultColors (ThemeCtx.providerValue s).theme ∧
    ((ThemeCtx.providerValue s).colors = ThemeCtx.defaultColors (ThemeCtx.providerValue s).theme →
      (ThemeCtx.providerValue (ThemeCtx.setThemeStep t s)).colors
        = ThemeCtx.defaultColors (ThemeCtx.providerValue (ThemeCtx.setThemeStep t s)).theme) ∧
    ¬ (∀ v : ThemeCtx.ThemeContextValue, v.colors = ThemeCtx.defaultColors v.theme) := by
  refine ⟨rfl, fun _ => rfl, fun h => ?_⟩
  exact absurd
    (h { theme := ThemeCtx.Theme.dark, colors := ThemeCtx.defaultColors ThemeCtx.Theme.light })
    (by decide)

/--
Witness for the amended C3: the invariant after the concrete step from
the light theme to the dark theme, obtained by discharging the
implication with the invariant before the step.
-/
theorem claim3_theme_invariant_witness :
    (ThemeCtx.providerValue (ThemeCtx.setThemeStep ThemeCtx.Theme.dark ThemeCtx.Theme.light)).colors
      = ThemeCtx.defaultColors
        (ThemeCtx.providerValue (ThemeCtx.setThemeStep ThemeCtx.Theme.dark ThemeCtx.Theme.light)).theme :=
  (claim3_theme_invariant ThemeCtx.Theme.light ThemeCtx.Theme.dark).2.1
    (claim3_theme_invariant ThemeCtx.Theme.light ThemeCtx.Theme.dark).1

/--
Counterexample to claim C4: the claim that no error raised inside a
function of the source reaches a caller — in particular that no error
thrown by `fetchUser` is received by `loadUserData` — is false.  On the
concrete failing response with status 500, `fetchUser` throws the HTTP
error, and `loadUserData`, which calls `fetchUser`, catches exactly
that error and stores its message via `setError`.
-/
theorem claim4_counterexample :
    ApiAsync.fetchUser ApiAsync.badResponse = Except.error "HTTP error: 500" ∧
    (ApiAsync.loadUserData ApiAsync.badResponse ApiAsync.initialUi).error
      = some "HTTP error: 500" := by
  constructor <;> rfl

/--
Claim C4 as amended: within the API snippet a call graph does exist and
errors propagate across it.  For every response with `ok` false and
every prior state, `fetchUser` rethrows the HTTP error for the
response's status, and `loadUserData` — its caller — receives that
error in its catch block, stores the message via `setError`, and runs
the `finally` block clearing the loading flag.
-/
theorem claim4_error_propagates (r : ApiAsync.Response) (s : ApiAsync.UiState)
    (h : r.ok = false) :
    ApiAsync.fetchUser r = Except.error ("HTTP error: " ++ toString r.status) ∧
    (ApiAsync.loadUserData r s).error = some ("HTTP error: " ++ toString r.status) ∧
    (ApiAsync.loadUserData r s).loading = false := by
  have hf : ApiAsync.fetchUser r = Except.error ("HTTP error: " ++ toString r.status) := by
    simp [ApiAsync.fetchUser, ApiAsync.fetchUserTry, h]
  refine ⟨hf, ?_, ?_⟩ <;> simp [ApiAsync.loadUserData, hf]

/--
Witness for the amended C4: the propagation theorem applied to the
concrete failing response with status 500.
-/
theorem claim4_error_propagates_witness :
    (ApiAsync.loadUserData ApiAsync.badResponse ApiAsync.initialUi).error
      = some ("HTTP error: " ++ toString ApiAsync.badResponse.status) ∧
    (ApiAsync.loadUserData ApiAsync.badResponse ApiAsync.initialUi).loading = false :=
  ⟨(claim4_error_propagates ApiAsync.badResponse ApiAsync.initialUi rfl).2.1,
   (claim4_error_propagates ApiAsync.badResponse ApiAsync.initialUi rfl).2.2⟩

/--
Claim C6: every `Media` value has type tag photo or video, exactly one
of `isPhoto` and `isVideo` holds, `MediaItem` returns from the photo
branch or the video branch accordingly, and the exhaustiveness branch
returning null is unreachable.
-/
theorem claim6_media_exhaustive (m : MediaGuards.Media) :
    (MediaGuards.mediaType m = "photo" ∨ MediaGuards.mediaType m = "video") ∧
    ((MediaGuards.isPhoto m = true ∧ MediaGuards.isVideo m = false) ∨
     (MediaGuards.isPhoto m = false ∧ MediaGuards.isVideo m = true)) ∧
    MediaGuards.MediaItem m ≠ MediaGuards.Rendered.nullView ∧
    (MediaGuards.isPhoto m = true →
      MediaGuards.MediaItem m
        = MediaGuards.Rendered.imageView (MediaGuards.mediaUri m) (MediaGuards.mediaWidth m)
            (MediaGuards.mediaHeight m)) ∧
    (MediaGuards.isVideo m = true →
      MediaGuards.MediaItem m
        = MediaGuards.Rendered.videoView (MediaGuards.mediaThumbnail m)
            (MediaGuards.mediaDuration m)) := by
  cases m <;>
    simp [MediaGuards.MediaItem, MediaGuards.isPhoto, MediaGuards.isVideo, MediaGuards.mediaType,
      MediaGuards.mediaUri, MediaGuards.mediaWidth, MediaGuards.mediaHeight,
      MediaGuards.mediaThumbnail, MediaGuards.mediaDuration]

/--
Witness for C6: `MediaItem` on a concrete photo and a concrete video,
obtained from the two conditional branches of the claim theorem.
-/
theorem claim6_media_exhaustive_witness :
    MediaGuards.MediaItem (MediaGuards.Media.photo "p.jpg" 100 80)
      = MediaGuards.Rendered.imageView "p.jpg" 100 80 ∧
    MediaGuards.MediaItem (MediaGuards.Media.video "v.mp4" 30 "t.jpg")
      = MediaGuards.Rendered.videoView "t.jpg" 30 :=
  ⟨(claim6_media_exhaustive (MediaGuards.Media.photo "p.jpg" 100 80)).2.2.2.1 (by decide),
   (claim6_media_exhaustive (MediaGuards.Media.video "v.mp4" 30 "t.jpg")).2.2.2.2 (by decide)⟩

/--
Claim C7: `updateField k v` sets field `k` of the form to `v` and
leaves the other fields unchanged, and it touches the error map only by
clearing the entry for `k` — which it does only when that entry was
previously present (a truthy guard implies presence) — leaving the
entries of every other field unchanged in every case.
-/
theorem claim7_updateField_frame (k : FormUpdate.Field) (v : FormUpdate.FieldValue k)
    (f : FormUpdate.LoginForm) (errs : FormUpdate.FormErrors) :
    FormUpdate.getField k (FormUpdate.setField k v f) = v ∧
    (∀ j : FormUpdate.Field, j ≠ k →
      FormUpdate.getField j (FormUpdate.setField k v f) = FormUpdate.getField j f) ∧
    (∀ j : FormUpdate.Field, j ≠ k →
      FormUpdate.updateErrors k errs j = errs j) ∧
    (FormUpdate.entryTruthy (errs k) = true →
      FormUpdate.updateErrors k errs k = none ∧ errs k ≠ none) ∧
    (FormUpdate.entryTruthy (errs k) = false →
      FormUpdate.updateErrors k errs = errs) := by
  refine ⟨?_, ?_, ?_, ?_, ?_⟩
  · cases k <;> rfl
  · intro j hj
    cases k <;> cases j <;> simp_all [FormUpdate.getField, FormUpdate.setField]
  · intro j hj
    simp only [FormUpdate.updateErrors]
    split
    · simp [hj]
    · rfl
  · intro h
    refine ⟨by simp [FormUpdate.updateErrors, h], ?_⟩
    cases he : errs k <;> simp_all [FormUpdate.entryTruthy]
  · intro h
    simp [FormUpdate.updateErrors, h]

/--
Witness for C7: `updateField` on a concrete form and a concrete error
map carrying an entry for the email field: the email field is updated,
the password field is untouched, the password error entry is untouched,
and the email error entry — previously present — is cleared.
-/
theorem claim7_updateField_frame_witness :
    FormUpdate.getField FormUpdate.Field.email
      (FormUpdate.setField FormUpdate.Field.email "x@y.z" FormUpdate.sampleForm) = "x@y.z" ∧
    FormUpdate.getField FormUpdate.Field.password
      (FormUpdate.setField FormUpdate.Field.email "x@y.z" FormUpdate.sampleForm)
      = FormUpdate.getField FormUpdate.Field.password FormUpdate.sampleForm ∧
    FormUpdate.updateErrors FormUpdate.Field.email FormUpdate.sampleErrors FormUpdate.Field.password
      = FormUpdate.sampleErrors FormUpdate.Field.password ∧
    FormUpdate.updateErrors FormUpdate.Field.email FormUpdate.sampleErrors FormUpdate.Field.email
      = none ∧
    FormUpdate.sampleErrors FormUpdate.Field.email ≠ none :=
  ⟨(claim7_updateField_frame FormUpdate.Field.email "x@y.z" FormUpdate.sampleForm FormUpdate.sampleErrors).1,
   (claim7_updateField_frame FormUpdate.Field.email "x@y.z" FormUpdate.sampleForm FormUpdate.sampleErrors).2.1
     FormUpdate.Field.password (by decide),
   (claim7_updateField_frame FormUpdate.Field.email "x@y.z" FormUpdate.sampleForm FormUpdate.sampleErrors).2.2.1
     FormUpdate.Field.password (by decide),
   ((claim7_updateField_frame FormUpdate.Field.email "x@y.z" FormUpdate.sampleForm FormUpdate.sampleErrors).2.2.2.1
     (by decide)).1,
   ((claim7_updateField_frame FormUpdate.Field.email "x@y.z" FormUpdate.sampleForm FormUpdate.sampleErrors).2.2.2.1
     (by decide)).2⟩

/--
Claim C8: `useTheme` returns the context value supplied by the nearest
enclosing `ThemeProvider` (the consumed context), throws exactly the
message about requiring a `ThemeProvider` when the consumed context is
undefined, and a successful return always carries the consumed value —
it never returns undefined.
-/
theorem claim8_useTheme_total (ctx : Option ThemeCtx.ThemeContextValue) :
    (∀ v, ctx = some v → ThemeCtx.useTheme ctx = Except.ok v) ∧
    (ThemeCtx.useTheme ctx = Except.error "useTheme must be used within a ThemeProvider" ↔
      ctx = none) ∧
    (∀ v, ThemeCtx.useTheme ctx = Except.ok v → ctx = some v) := by
  cases ctx <;> simp [ThemeCtx.useTheme]

/--
Witness for C8: `useTheme` on the light-theme provider value and on an
absent context.
-/
theorem claim8_useTheme_total_witness :
    ThemeCtx.useTheme (some (ThemeCtx.providerValue ThemeCtx.Theme.light))
      = Except.ok (ThemeCtx.providerValue ThemeCtx.Theme.light) ∧
    ThemeCtx.useTheme none = Except.error "useTheme must be used within a ThemeProvider" :=
  ⟨(claim8_useTheme_total (some (ThemeCtx.providerValue ThemeCtx.Theme.light))).1
     (ThemeCtx.providerValue ThemeCtx.Theme.light) rfl,
   (claim8_useTheme_total none).2.1.mpr rfl⟩

/--
Counterexample to claim C9: the claim that no snippet references a
definition of another snippet is false: the custom-type-definitions
snippet and the API snippet are distinct snippets of the Guide
document, the former references the name User without defining it, and
the latter defines it.
-/
theorem claim9_counterexample :
    Snippets.customTypesSnippet ∈ Snippets.guideSnippets ∧
    Snippets.apiAsyncSnippet ∈ Snippets.guideSnippets ∧
    Snippets.customTypesSnippet ≠ Snippets.apiAsyncSnippet ∧
    "User" ∈ Snippets.customTypesSnippet.freeRefs ∧
    "User" ∈ Snippets.apiAsyncSnippet.defines := by
  refine ⟨?_, ?_, ?_, ?_, ?_⟩ <;> decide

/--
Claim C9 as amended: among the Guide document's snippets, cross-snippet
name references exist but are exactly two: the custom-type-definitions
snippet references the name User defined in the API snippet, and the
API snippet references the name setUser declared in the state-handling
snippet; no other free name of any snippet is defined by a different
snippet.
-/
theorem claim9_cross_references :
    ∀ s ∈ Snippets.guideSnippets, ∀ t ∈ Snippets.guideSnippets,
      s.name ≠ t.name → ∀ n ∈ s.freeRefs, n ∈ t.defines →
      ((s.name = "customTypes" ∧ t.name = "apiAsync" ∧ n = "User") ∨
       (s.name = "apiAsync" ∧ t.name = "stateHandling" ∧ n = "setUser")) := by
  decide

/--
Witness for the amended C9: the characterization applied to the
concrete cross-reference of the name User from the
custom-type-definitions snippet to the API snippet.
-/
theorem claim9_cross_references_witness :
    (Snippets.customTypesSnippet.name = "customTypes" ∧
      Snippets.apiAsyncSnippet.name = "apiAsync" ∧ "User" = "User") ∨
    (Snippets.customTypesSnippet.name = "apiAsync" ∧
      Snippets.apiAsyncSnippet.name = "stateHandling" ∧ "User" = "setUser") :=
  claim9_cross_references Snippets.customTypesSnippet (by decide)
    Snippets.apiAsyncSnippet (by decide) (by decide) "User" (by decide) (by decide)
